import Mathlib

/-!
Verification of the AD9910 DDS driver (`artiq/coredevice/ad9910.py`).

The driver is embedded shallowly:

* Kernel integers are 32-bit two's-complement; they are modelled as `Int`
  with an explicit reduction `toInt32` applied wherever the source performs
  32-bit arithmetic (numpy `int32` semantics: every arithmetic operation
  wraps modulo `2^32` into `[-2^31, 2^31)`).
* The RTIO timeline and the register traffic are modelled as an explicit
  state `St` holding the current timestamp (`now_mu`) and the list of
  register transactions and IO_UPDATE pulses issued so far.  The durations
  of the external SPI transfers and of the microsecond-denominated pulses
  and delays (provided by the spi2/urukul/TTL collaborators, which are
  outside this driver) are abstract nonnegative parameters in `Env`.
* Hardware read-backs (the CPLD status word, the effective FTW register)
  are abstracted as function parameters of the calibration searches,
  matching the synthetic probe functions the specification is phrased in.
* Host floats appearing in the constructor (`refclk`, `ref_period`) are
  modelled as rationals; the constructor only compares and rounds them, and
  every assertion it makes is exact.
-/

/-! ## 32-bit two's-complement arithmetic -/

/-- Reduce an integer into the signed 32-bit range `[-2^31, 2^31)`
(numpy `int32` / ARTIQ kernel `int` wrap-around semantics). -/
def toInt32 (x : Int) : Int := (x + 2^31) % 2^32 - 2^31

/-- 32-bit wrapping addition. -/
def add32 (a b : Int) : Int := toInt32 (a + b)

/-- 32-bit wrapping subtraction. -/
def sub32 (a b : Int) : Int := toInt32 (a - b)

/-- 32-bit wrapping multiplication. -/
def mul32 (a b : Int) : Int := toInt32 (a * b)

/-- 32-bit wrapping left shift (`a << n` on an int32). -/
def shl32 (a : Int) (n : Nat) : Int := toInt32 (a * 2^n)

/-- Arithmetic (sign-preserving, flooring) right shift `a >> n`. -/
def ashr (a : Int) (n : Nat) : Int := Int.fdiv a (2^n)

/-- The unsigned 32-bit representative (two's-complement bit pattern). -/
def u32 (a : Int) : Nat := (a % 2^32).toNat

/-- Bitwise or of two int32 values on their two's-complement patterns. -/
def or32 (a b : Int) : Int := toInt32 ((Nat.lor (u32 a) (u32 b) : Nat) : Int)

lemma toInt32_add_mul (x k : Int) : toInt32 (x + 2^32 * k) = toInt32 x := by
  unfold toInt32; omega

lemma exists_toInt32 (a : Int) : ∃ k, toInt32 a = a + 2^32 * k := by
  refine ⟨-((a + 2^31) / 2^32), ?_⟩
  unfold toInt32; omega

lemma toInt32_mul_left (a b : Int) : toInt32 (toInt32 a * b) = toInt32 (a * b) := by
  obtain ⟨k, hk⟩ := exists_toInt32 a
  rw [hk, show (a + 2^32 * k) * b = a * b + 2^32 * (k * b) by ring, toInt32_add_mul]

lemma toInt32_sub_sub (a b : Int) : toInt32 (toInt32 a - toInt32 b) = toInt32 (a - b) := by
  obtain ⟨k, hk⟩ := exists_toInt32 a
  obtain ⟨l, hl⟩ := exists_toInt32 b
  rw [hk, hl, show a + 2^32 * k - (b + 2^32 * l) = (a - b) + 2^32 * (k - l) by ring,
    toInt32_add_mul]

/-! ## Register map and phase-mode constants (`ad9910.py` lines 20-45) -/

def _PHASE_MODE_DEFAULT : Int := -1
def PHASE_MODE_CONTINUOUS : Int := 0
def PHASE_MODE_ABSOLUTE : Int := 1
def PHASE_MODE_TRACKING : Int := 2

def _AD9910_REG_CFR1 : Int := 0x00
def _AD9910_REG_CFR2 : Int := 0x01
def _AD9910_REG_CFR3 : Int := 0x02
def _AD9910_REG_AUX_DAC : Int := 0x03
def _AD9910_REG_FTW : Int := 0x07
def _AD9910_REG_MSYNC : Int := 0x0A
def _AD9910_REG_PR0 : Int := 0x0E

/-! ## Timeline and register-transaction trace -/

/-- One observable hardware action of the driver: a 32-bit register write,
a 64-bit register write, an IO_UPDATE pulse (with its duration in machine
units), or a read of the CPLD status word. -/
inductive Ev where
  | w32 (addr data : Int)
  | w64 (addr hi lo : Int)
  | pulse (dur : Int)
  | staRead
  deriving DecidableEq

/-- The RTIO state: the timeline cursor `now_mu()` and the trace of
hardware actions issued so far. -/
structure St where
  now : Int
  trace : List Ev
  deriving DecidableEq

/-- Durations contributed by the external collaborators (spi2 bus, TTL,
core): machine units consumed by a 32-bit register write, by a 64-bit
register write, and per microsecond of `pulse`/`delay`. -/
structure Env where
  w32dur : Int
  w64dur : Int
  us : Int
  deriving DecidableEq

/-- `write32` (lines 153-165): one 8-bit address phase plus one 32-bit data
phase; recorded as a single 32-bit register transaction. -/
def busWrite32 (e : Env) (addr data : Int) (s : St) : St :=
  { now := s.now + e.w32dur, trace := s.trace ++ [Ev.w32 addr data] }

/-- `write64` (lines 182-198): address phase, high word, low word. -/
def busWrite64 (e : Env) (addr hi lo : Int) (s : St) : St :=
  { now := s.now + e.w64dur, trace := s.trace ++ [Ev.w64 addr hi lo] }

/-- `self.cpld.io_update.pulse_mu(d)`: a pulse of `d` machine units,
advancing the timeline by `d`. -/
def pulse_mu (d : Int) (s : St) : St :=
  { now := s.now + d, trace := s.trace ++ [Ev.pulse d] }

/-- `self.cpld.io_update.pulse(1*us)`: a one-microsecond pulse. -/
def ioPulseUs (e : Env) (s : St) : St :=
  { now := s.now + e.us, trace := s.trace ++ [Ev.pulse e.us] }

/-- `delay_mu(d)`: advance the timeline, no hardware action. -/
def delay_mu (d : Int) (s : St) : St := { s with now := s.now + d }

/-- `delay(k*us)`: advance the timeline by `k` microseconds. -/
def delayUs (e : Env) (k : Int) (s : St) : St := { s with now := s.now + k * e.us }

/-- `at_mu(t)`: set the timeline cursor. -/
def at_mu (t : Int) (s : St) : St := { s with now := t }

/-- `self.cpld.sta_read()`: read the CPLD status word. -/
def staRead (s : St) : St := { s with trace := s.trace ++ [Ev.staRead] }

/-- `t & ~0xf`: clear the low four bits, i.e. round the timestamp down to a
multiple of 16 machine units. -/
def align16 (t : Int) : Int := t - t % 16

/-! ## Channel state (`AD9910.__init__`, lines 78-106) -/

/-- The per-channel configuration established by the constructor, plus the
mutable default phase mode (line 106 / `set_phase_mode`). -/
structure AD9910 where
  chip_select : Int
  pll_n : Int
  pll_cp : Int
  pll_vco : Int
  ftw_per_hz : ℚ
  sysclk_per_mu : Int
  sync_delay_seed : Int
  io_update_delay : Int
  phase_mode : Int
  deriving DecidableEq

/-! ## `set_mu` (lines 257-307) -/

/-- `AD9910.set_mu(ftw, pow, asf, phase_mode, ref_time)` (lines 283-307):
resolve the default phase mode, align the timeline to coarse RTIO, in
Absolute/Tracking mode arm the phase-accumulator auto-clear and apply the
tracking phase correction, write the 64-bit profile register, pulse
IO_UPDATE after the configured alignment delay, re-align, disarm, and
return the phase offset word actually used. -/
def set_mu (ch : AD9910) (e : Env) (ftw pow asf phase_mode ref_time : Int)
    (s0 : St) : St × Int :=
  let pm := if phase_mode = _PHASE_MODE_DEFAULT then ch.phase_mode else phase_mode
  -- at_mu(now_mu() & ~0xf): align to coarse RTIO which aligns SYNC_CLK
  let s := at_mu (align16 s0.now) s0
  let spw :=
    if pm ≠ PHASE_MODE_CONTINUOUS then
      -- auto-clear phase accumulator on IO_UPDATE
      let s := busWrite32 e _AD9910_REG_CFR1 0x00002002 s
      -- set default fiducial time stamp
      let rt := if pm = PHASE_MODE_TRACKING ∧ ref_time < 0 then (0 : Int) else ref_time
      let pw :=
        if 0 ≤ rt then
          -- dt = int32(now_mu()) - int32(ref_time); 32 LSB are sufficient
          let dt := sub32 (toInt32 s.now) (toInt32 rt)
          -- pow += dt*ftw*self.sysclk_per_mu >> 16
          add32 pow (ashr (mul32 (mul32 dt ftw) ch.sysclk_per_mu) 16)
        else pow
      (s, pw)
    else (s, pow)
  let s := busWrite64 e _AD9910_REG_PR0 (or32 (shl32 asf 16) spw.2) ftw spw.1
  let s := delay_mu ch.io_update_delay s
  let s := pulse_mu 8 s  -- assumes 8 mu > t_SYSCLK
  let s := at_mu (align16 s.now) s
  let s := if pm ≠ PHASE_MODE_CONTINUOUS
    then busWrite32 e _AD9910_REG_CFR1 0x00000002 s else s
  (s, spw.2)

/-- The phase offset word as the specification states it for Tracking mode:
the requested `pow` plus `((now - ref_time) * ftw * sysclk_per_mu) >> 16`,
with the time difference taken on the low 32 bits as a signed value, the
product accumulated in the 32-bit hardware width, and a missing reference
time (`ref_time < 0`) defaulting to the time-zero fiducial. -/
def specTrackingPow (sysclk_per_mu ftw now ref_time pow : Int) : Int :=
  let fiducial := if ref_time < 0 then (0 : Int) else ref_time
  add32 pow (ashr (toInt32 (toInt32 (now - fiducial) * ftw * sysclk_per_mu)) 16)

/-! Predicates over trace events used by the arm/disarm claims.  The
"accumulator auto-clear" bit is CFR1 bit 13 (`0x2000`). -/

/-- A CFR1 write with the phase-accumulator auto-clear bit (bit 13) set. -/
def isArmWrite : Ev → Bool
  | .w32 addr data => addr == _AD9910_REG_CFR1 && Nat.testBit (u32 data) 13
  | _ => false

/-- A CFR1 write with the phase-accumulator auto-clear bit clear. -/
def isDisarmWrite : Ev → Bool
  | .w32 addr data => addr == _AD9910_REG_CFR1 && !Nat.testBit (u32 data) 13
  | _ => false

/-- An IO_UPDATE pulse. -/
def isPulseEv : Ev → Bool
  | .pulse _ => true
  | _ => false

/-- Any write addressed to CFR1. -/
def isCfr1Write : Ev → Bool
  | .w32 addr _ => addr == _AD9910_REG_CFR1
  | _ => false

/-- Any register write (32- or 64-bit). -/
def isRegWrite : Ev → Bool
  | .w32 _ _ => true
  | .w64 _ _ _ => true
  | _ => false

/-- Concrete channel and environment used by the counterexamples. -/
def chTest : AD9910 :=
  { chip_select := 4, pll_n := 40, pll_cp := 7, pll_vco := 5, ftw_per_hz := 0,
    sysclk_per_mu := 1, sync_delay_seed := -1, io_update_delay := 0,
    phase_mode := PHASE_MODE_CONTINUOUS }

def envTest : Env := { w32dur := 0, w64dur := 0, us := 0 }

/-! ## Claim theorems about `set_mu` -/

lemma set_mu_correction_chain (sysclk ftw now fid pow : Int) :
    add32 pow (ashr (mul32 (mul32 (sub32 (toInt32 now) (toInt32 fid)) ftw) sysclk) 16)
      = add32 pow (ashr (toInt32 (toInt32 (now - fid) * ftw * sysclk)) 16) := by
  have h1 : sub32 (toInt32 now) (toInt32 fid) = toInt32 (now - fid) := by
    unfold sub32; exact toInt32_sub_sub now fid
  unfold mul32
  rw [h1, toInt32_mul_left (toInt32 (now - fid) * ftw) sysclk]

/-- C3: for every call to `set_mu` with `phase_mode = Tracking`, the phase
word written to the profile register and returned equals
`requested_pow + ((now - ref_time) * ftw * sysclk_per_mu) >> 16`, the time
difference taken on the low 32 bits as a signed value (wrapping modulo
`2^32`); when no reference time is supplied (`ref_time < 0`) the fiducial
defaults to time zero. -/
theorem set_mu_tracking_pow_formula (ch : AD9910) (e : Env)
    (ftw pow asf ref_time : Int) (s0 : St) :
    (set_mu ch e ftw pow asf PHASE_MODE_TRACKING ref_time s0).2
      = specTrackingPow ch.sysclk_per_mu ftw (align16 s0.now + e.w32dur) ref_time pow ∧
    Ev.w64 _AD9910_REG_PR0
        (or32 (shl32 asf 16)
          ((set_mu ch e ftw pow asf PHASE_MODE_TRACKING ref_time s0).2)) ftw
      ∈ (set_mu ch e ftw pow asf PHASE_MODE_TRACKING ref_time s0).1.trace := by
  by_cases href : ref_time < 0
  · simp [set_mu, specTrackingPow, _PHASE_MODE_DEFAULT, PHASE_MODE_TRACKING,
      PHASE_MODE_CONTINUOUS, busWrite32, busWrite64, pulse_mu, delay_mu, at_mu,
      href, set_mu_correction_chain]
  · simp [set_mu, specTrackingPow, _PHASE_MODE_DEFAULT, PHASE_MODE_TRACKING,
      PHASE_MODE_CONTINUOUS, busWrite32, busWrite64, pulse_mu, delay_mu, at_mu,
      href, not_lt.mp href, set_mu_correction_chain]

/-- C5: for every call to `set_mu` with `phase_mode = Continuous`, no
accumulator-clear configuration write (CFR1 write) is issued — the only
register write is the 64-bit profile write — and the phase word written and
returned is exactly the requested `pow`, unchanged. -/
theorem set_mu_continuous_no_cfr1 (ch : AD9910) (e : Env)
    (ftw pow asf ref_time : Int) (s0 : St) :
    (set_mu ch e ftw pow asf PHASE_MODE_CONTINUOUS ref_time s0).2 = pow ∧
    (set_mu ch e ftw pow asf PHASE_MODE_CONTINUOUS ref_time s0).1.trace
      = s0.trace ++ [Ev.w64 _AD9910_REG_PR0 (or32 (shl32 asf 16) pow) ftw,
                     Ev.pulse 8] ∧
    List.countP isCfr1Write
      [Ev.w64 _AD9910_REG_PR0 (or32 (shl32 asf 16) pow) ftw, Ev.pulse 8] = 0 ∧
    List.filter isRegWrite
      [Ev.w64 _AD9910_REG_PR0 (or32 (shl32 asf 16) pow) ftw, Ev.pulse 8]
      = [Ev.w64 _AD9910_REG_PR0 (or32 (shl32 asf 16) pow) ftw] := by
  refine ⟨?_, ?_, by simp [isCfr1Write], by simp [isRegWrite]⟩ <;>
    simp [set_mu, _PHASE_MODE_DEFAULT, PHASE_MODE_CONTINUOUS,
      busWrite64, pulse_mu, delay_mu, at_mu]

/-- C1 counterexample: in Absolute mode a supplied reference time is NOT
ignored.  With `sysclk_per_mu = 1`, `ftw = 4096`, requested `pow = 0`,
`ref_time = 0` and the call issued at `now_mu() = 16`, the tracking
correction `(16 * 4096) >> 16 = 1` is applied, so the returned phase offset
word differs from the requested one. -/
theorem set_mu_absolute_ref_used_cex :
    (set_mu chTest envTest 4096 0 0 PHASE_MODE_ABSOLUTE 0
        { now := 16, trace := [] }).2 = 1 ∧ (1 : Int) ≠ 0 := by
  constructor
  · decide
  · decide

/-- C1 amended: in Absolute mode, when no reference time is supplied
(`ref_time < 0`) the phase offset word written to the profile register and
returned equals the requested `pow` with no tracking correction; a supplied
`ref_time ≥ 0` is not ignored — it induces the same correction as Tracking
mode, relative to that reference time. -/
theorem set_mu_absolute_amended (ch : AD9910) (e : Env)
    (ftw pow asf ref_time : Int) (s0 : St) :
    (set_mu ch e ftw pow asf PHASE_MODE_ABSOLUTE ref_time s0).2
      = (if ref_time < 0 then pow
         else specTrackingPow ch.sysclk_per_mu ftw (align16 s0.now + e.w32dur)
                ref_time pow) ∧
    Ev.w64 _AD9910_REG_PR0
        (or32 (shl32 asf 16)
          ((set_mu ch e ftw pow asf PHASE_MODE_ABSOLUTE ref_time s0).2)) ftw
      ∈ (set_mu ch e ftw pow asf PHASE_MODE_ABSOLUTE ref_time s0).1.trace := by
  by_cases href : ref_time < 0
  · simp [set_mu, specTrackingPow, _PHASE_MODE_DEFAULT, PHASE_MODE_ABSOLUTE,
      PHASE_MODE_TRACKING, PHASE_MODE_CONTINUOUS, busWrite32, busWrite64,
      pulse_mu, delay_mu, at_mu, href, not_le.mpr href]
  · simp [set_mu, specTrackingPow, _PHASE_MODE_DEFAULT, PHASE_MODE_ABSOLUTE,
      PHASE_MODE_TRACKING, PHASE_MODE_CONTINUOUS, busWrite32, busWrite64,
      pulse_mu, delay_mu, at_mu, href, not_lt.mp href, set_mu_correction_chain]

/-- C4: for every call to `set_mu` with `phase_mode = Absolute` or
`Tracking`, the register-write trace grows by exactly one arm write (CFR1
with the accumulator-auto-clear bit 13 set) and exactly one disarm write
(CFR1 without it), in that order, with exactly one IO_UPDATE pulse between
them; this holds on every successful call, so no transient armed state
leaks into subsequent calls. -/
theorem set_mu_arm_disarm_bracket (ch : AD9910) (e : Env)
    (ftw pow asf phase_mode ref_time : Int) (s0 : St)
    (h : phase_mode = PHASE_MODE_ABSOLUTE ∨ phase_mode = PHASE_MODE_TRACKING) :
    ∃ hi,
      (set_mu ch e ftw pow asf phase_mode ref_time s0).1.trace
        = s0.trace ++ ([Ev.w32 _AD9910_REG_CFR1 0x00002002]
            ++ [Ev.w64 _AD9910_REG_PR0 hi ftw, Ev.pulse 8]
            ++ [Ev.w32 _AD9910_REG_CFR1 0x00000002]) ∧
      List.countP isArmWrite ([Ev.w32 _AD9910_REG_CFR1 0x00002002]
            ++ [Ev.w64 _AD9910_REG_PR0 hi ftw, Ev.pulse 8]
            ++ [Ev.w32 _AD9910_REG_CFR1 0x00000002]) = 1 ∧
      List.countP isDisarmWrite ([Ev.w32 _AD9910_REG_CFR1 0x00002002]
            ++ [Ev.w64 _AD9910_REG_PR0 hi ftw, Ev.pulse 8]
            ++ [Ev.w32 _AD9910_REG_CFR1 0x00000002]) = 1 ∧
      List.countP isPulseEv [Ev.w64 _AD9910_REG_PR0 hi ftw, Ev.pulse 8] = 1 := by
  refine ⟨or32 (shl32 asf 16) ((set_mu ch e ftw pow asf phase_mode ref_time s0).2),
    ?_, ?_, ?_, ?_⟩
  · rcases h with h | h <;> subst h <;>
      simp [set_mu, _PHASE_MODE_DEFAULT, PHASE_MODE_ABSOLUTE, PHASE_MODE_TRACKING,
        PHASE_MODE_CONTINUOUS, busWrite32, busWrite64, pulse_mu, delay_mu, at_mu]
  · simp [List.countP_cons, List.countP_nil, isArmWrite]
    decide
  · simp [List.countP_cons, List.countP_nil, isDisarmWrite]
    decide
  · simp [List.countP_cons, List.countP_nil, isPulseEv]

lemma toInt32_mul3 (a f s : Int) : toInt32 (toInt32 a * f * s) = toInt32 (a * f * s) := by
  rw [show toInt32 a * f * s = toInt32 a * (f * s) by ring, toInt32_mul_left,
    show a * (f * s) = a * f * s by ring]

lemma tracking_corr_period (now ref ftw sys : Int)
    (hdvd : ftw ∣ (4294967296 : Int)) :
    toInt32 ((now - (ref - 4294967296 / ftw)) * ftw * sys)
      = toInt32 ((now - ref) * ftw * sys) := by
  have hPf : 4294967296 / ftw * ftw = (4294967296 : Int) := Int.ediv_mul_cancel hdvd
  rw [show (now - (ref - 4294967296 / ftw)) * ftw * sys
        = (now - ref) * ftw * sys + (4294967296 / ftw * ftw) * sys by ring, hPf,
    show (now - ref) * ftw * sys + (4294967296 : Int) * sys
        = (now - ref) * ftw * sys + 2^32 * sys by ring, toInt32_add_mul]

/-- C8: the Tracking-mode phase correction computed by `set_mu` is periodic
in the difference `now - ref_time` with period `2^32 / ftw` machine-time
ticks: for every `ftw` dividing `2^32`, moving the reference time earlier
by `2^32 / ftw` (which adds `2^32 / ftw` to the time difference) yields the
same adjusted phase offset word. -/
theorem set_mu_tracking_periodic (ch : AD9910) (e : Env)
    (ftw pow asf ref_time : Int) (s0 : St)
    (hdvd : ftw ∣ (2^32 : Int)) (h0 : 0 ≤ ref_time)
    (h1 : 0 ≤ ref_time - 2^32 / ftw) :
    (set_mu ch e ftw pow asf PHASE_MODE_TRACKING (ref_time - 2^32 / ftw) s0).2
      = (set_mu ch e ftw pow asf PHASE_MODE_TRACKING ref_time s0).2 := by
  have hP : ((2 : Int)^32) = 4294967296 := by norm_num
  have hdvd' : ftw ∣ (4294967296 : Int) := hP ▸ hdvd
  have h1' : ¬ (ref_time < (4294967296 : Int) / ftw) := by
    rw [← hP]; exact not_lt.mpr (sub_nonneg.mp h1)
  have h1n : (0 : Int) ≤ ref_time - 4294967296 / ftw := by rw [← hP]; exact h1
  simp only [set_mu, _PHASE_MODE_DEFAULT, PHASE_MODE_TRACKING, PHASE_MODE_CONTINUOUS]
  norm_num [not_lt.mpr h0, h0, h1', h1n, busWrite32, at_mu,
    set_mu_correction_chain, toInt32_mul3]
  rw [tracking_corr_period _ _ _ _ hdvd']

/-- C8 witness: the periodicity theorem instantiated at `ftw = 2^16`
(`2^32 / ftw = 65536`), `ref_time = 65536`, `pow = 7`. -/
theorem set_mu_tracking_periodic_witness :
    ((65536 : Int) ∣ (2^32 : Int)) ∧ (0 ≤ (65536 : Int))
      ∧ (0 ≤ (65536 : Int) - 2^32 / 65536)
      ∧ (set_mu chTest envTest 65536 7 0 PHASE_MODE_TRACKING (65536 - 2^32 / 65536)
          { now := 16, trace := [] }).2
        = (set_mu chTest envTest 65536 7 0 PHASE_MODE_TRACKING 65536
          { now := 16, trace := [] }).2 :=
  ⟨⟨65536, by norm_num⟩, by norm_num, by norm_num,
    set_mu_tracking_periodic chTest envTest 65536 7 0 65536
      { now := 16, trace := [] } ⟨65536, by norm_num⟩ (by norm_num) (by norm_num)⟩

/-- C10: `set_mu` never reduces the adjusted phase offset word modulo
`2^16`.  Concretely, in Tracking mode with `ftw = 65536`, requested
`pow = 65535 ∈ [0, 2^16)`, `asf = 0`, `ref_time = 15` and the call at
`now_mu() = 16`, the correction is `1`, the returned value `65536` lies
outside `[0, 2^16)`, the high word of the 64-bit profile write is
`(asf << 16) | pow` computed on that unreduced value, and it differs from
the value the reduced `pow` would give — the correction bit overlaps the
amplitude field. -/
theorem set_mu_pow_unreduced :
    (set_mu chTest envTest 65536 65535 0 PHASE_MODE_TRACKING 15
        { now := 16, trace := [] }).2 = 65536 ∧
    ¬ (0 ≤ (set_mu chTest envTest 65536 65535 0 PHASE_MODE_TRACKING 15
        { now := 16, trace := [] }).2 ∧
       (set_mu chTest envTest 65536 65535 0 PHASE_MODE_TRACKING 15
        { now := 16, trace := [] }).2 < 2^16) ∧
    Ev.w64 _AD9910_REG_PR0
        (or32 (shl32 0 16)
          ((set_mu chTest envTest 65536 65535 0 PHASE_MODE_TRACKING 15
            { now := 16, trace := [] }).2)) 65536
      ∈ (set_mu chTest envTest 65536 65535 0 PHASE_MODE_TRACKING 15
        { now := 16, trace := [] }).1.trace ∧
    or32 (shl32 0 16)
        ((set_mu chTest envTest 65536 65535 0 PHASE_MODE_TRACKING 15
          { now := 16, trace := [] }).2)
      ≠ or32 (shl32 0 16)
        ((set_mu chTest envTest 65536 65535 0 PHASE_MODE_TRACKING 15
          { now := 16, trace := [] }).2 % 2^16) := by
  refine ⟨by decide, by decide, by decide, by decide⟩

/-- C4 witness: the arm/disarm bracket at a concrete Absolute-mode call. -/
theorem set_mu_arm_disarm_bracket_witness :
    ∃ hi,
      (set_mu chTest envTest 4096 0 0 PHASE_MODE_ABSOLUTE (-1)
          { now := 16, trace := [] }).1.trace
        = ([] : List Ev) ++ ([Ev.w32 _AD9910_REG_CFR1 0x00002002]
            ++ [Ev.w64 _AD9910_REG_PR0 hi 4096, Ev.pulse 8]
            ++ [Ev.w32 _AD9910_REG_CFR1 0x00000002]) ∧
      List.countP isArmWrite ([Ev.w32 _AD9910_REG_CFR1 0x00002002]
            ++ [Ev.w64 _AD9910_REG_PR0 hi 4096, Ev.pulse 8]
            ++ [Ev.w32 _AD9910_REG_CFR1 0x00000002]) = 1 ∧
      List.countP isDisarmWrite ([Ev.w32 _AD9910_REG_CFR1 0x00002002]
            ++ [Ev.w64 _AD9910_REG_PR0 hi 4096, Ev.pulse 8]
            ++ [Ev.w32 _AD9910_REG_CFR1 0x00000002]) = 1 ∧
      List.countP isPulseEv [Ev.w64 _AD9910_REG_PR0 hi 4096, Ev.pulse 8] = 1 :=
  set_mu_arm_disarm_bracket chTest envTest 4096 0 0 PHASE_MODE_ABSOLUTE (-1)
    { now := 16, trace := [] } (Or.inl rfl)

/-! ## `tune_io_update_delay` (lines 497-521)

`measure_io_update_alignment` (lines 458-495) programs the digital ramp
generator and reads back the effective FTW register; its result depends on
the hardware SYNC_CLK phase, so the probe is abstracted as a function
`measure` from the candidate IO_UPDATE delay to the odd/even SYNC_CLK
cycle indicator it returns. -/

/-- `period = 4  # f_RTIO/f_SYNC = 4` (line 512). -/
def io_period : Int := 4

/-- `max_delay = 8  # mu, 1 ns` (line 513). -/
def io_max_delay : Int := 8

/-- The scan loop of `tune_io_update_delay` (lines 516-521): for
`i in range(max_delay - 1)` probe `measure((d0 + i + 1) & (max_delay - 1))`
and, on the first indicator flip relative to `t0`, return
`(d0 + i + period//2) & (period - 1)`.  `x & (2^k - 1)` is `x % 2^k`. -/
def tuneIoLoop (measure : Int → Int) (d0 t0 : Int) : Nat → Nat → Except String Int
  | _, 0 => .error "no IO_UPDATE-SYNC_CLK alignment edge found"
  | i, fuel + 1 =>
    let t := measure ((d0 + i + 1) % io_max_delay)
    if t ≠ t0 then .ok ((d0 + i + io_period / 2) % io_period)
    else tuneIoLoop measure d0 t0 (i + 1) fuel

/-- `AD9910.tune_io_update_delay` (lines 497-521) with the hardware probe
`measure_io_update_alignment` abstracted as `measure`, starting from the
configured delay `d0 = self.io_update_delay`. -/
def tune_io_update_delay (measure : Int → Int) (d0 : Int) : Except String Int :=
  let t0 := toInt32 (measure d0)
  tuneIoLoop measure d0 t0 0 (io_max_delay - 1).toNat

/-- The synthetic alignment probe of the specification: a fixed bit `b` for
delays whose residue modulo 4 lies in `[0, k)` and the flipped bit `1 - b`
for residues in `[k, 4)`. -/
def probeStep (k b d : Int) : Int := if d % 4 < k then b else 1 - b

/-- C2 counterexample: with the synthetic probe for `k = 1`, `b = 0`
(bit `0` on delay residues `[0,1)`, bit `1` on `[1,4)`) and starting delay
`0`, `tune_io_update_delay` returns `2`, not `(k + 2) mod 4 = 3` as the
claim states. -/
theorem tune_io_update_delay_cex :
    tune_io_update_delay (probeStep 1 0) 0 = .ok 2 ∧
    tune_io_update_delay (probeStep 1 0) 0 ≠ .ok ((1 + 2) % 4) := by
  constructor
  · rfl
  · intro h
    rw [show tune_io_update_delay (probeStep 1 0) 0 = Except.ok 2 from rfl] at h
    simp only [Except.ok.injEq] at h
    norm_num at h

/-- C2 amended: for every `k ∈ [1,4)`, if the alignment probe returns a
fixed bit `b ∈ {0,1}` for delay residues in `[0,k)` and the flipped bit
`1 - b` for residues in `[k,4)` (extended with period 4), then
`tune_io_update_delay` started with `io_update_delay = 0` returns
`(k + 1) mod 4`. -/
theorem tune_io_update_delay_amended (k b : Int)
    (hk1 : 1 ≤ k) (hk4 : k < 4) (hb : b = 0 ∨ b = 1) :
    tune_io_update_delay (probeStep k b) 0 = .ok ((k + 1) % 4) := by
  interval_cases k <;> rcases hb with rfl | rfl <;> rfl

/-- C2 amended witness: the amended scan theorem at `k = 2`, `b = 1`. -/
theorem tune_io_update_delay_amended_witness :
    (1 ≤ (2 : Int)) ∧ ((2 : Int) < 4) ∧
    tune_io_update_delay (probeStep 2 1) 0 = .ok ((2 + 1) % 4) :=
  ⟨by norm_num, by norm_num,
    tune_io_update_delay_amended 2 1 (by norm_num) (by norm_num) (Or.inr rfl)⟩

/-! ## `set_sync`, `clear_smp_err` and `tune_sync_delay` (lines 381-456)

The per-channel SMP_ERR flag is obtained in the source as
`urukul_sta_smp_err(self.cpld.sta_read()) >> (self.chip_select - 4) & 1`.
The CPLD status word comes from the Urukul CPLD collaborator, which is not
part of this driver file.  Modelled from the spec: following §4.5 and §8
("given a synthetic error-flag function"), the flag the hardware reports is
abstracted as a function `err` of the currently programmed
(delay, window) pair; the `sta_read` bus access itself is recorded in the
trace. -/

/-- `AD9910.set_sync(in_delay, window)` (lines 381-399): program the
multi-device synchronization register. -/
def msyncData (in_delay window : Int) : Int :=
  or32 (or32 (or32 (or32 (or32 (or32
    (shl32 window 28)       -- SYNC S/H validation delay
    (shl32 1 27))           -- SYNC receiver enable
    (shl32 0 26))           -- SYNC generator disable
    (shl32 0 25))           -- SYNC generator SYS rising edge
    (shl32 0 18))           -- SYNC preset
    (shl32 0 11))           -- SYNC output delay
    (shl32 in_delay 3)      -- SYNC receiver delay

def set_sync (e : Env) (in_delay window : Int) (s : St) : St :=
  busWrite32 e _AD9910_REG_MSYNC (msyncData in_delay window) s

/-- `AD9910.clear_smp_err()` (lines 401-414): clear the SMP_ERR flag and
re-enable SMP_ERR validity monitoring, pulsing IO_UPDATE after each CFR2
write. -/
def clear_smp_err (e : Env) (s : St) : St :=
  let s := busWrite32 e _AD9910_REG_CFR2 0x01010020 s  -- clear SMP_ERR
  let s := ioPulseUs e s
  let s := busWrite32 e _AD9910_REG_CFR2 0x01010000 s  -- enable SMP_ERR
  ioPulseUs e s

/-- `dt = 14  # 1/(f_SYSCLK*75ps) taps per SYSCLK period` (line 431). -/
def sync_dt : Int := 14

/-- `max_delay = dt  # 14*75ps > 1ns` (line 432). -/
def sync_max_delay : Int := sync_dt

/-- `max_window = dt//4 + 1  # 75ps*4 = 300ps setup and hold` (line 433). -/
def sync_max_window : Int := sync_dt / 4 + 1

/-- `min_window = 1  # 1*75ps setup and hold` (line 434). -/
def sync_min_window : Int := 1

/-- The delay taps probed for one window size, in loop order (lines
437-441): for `in_delay in range(max_delay)`, negate odd values
(`if in_delay & 1: in_delay = -in_delay`) and take
`sync_delay_seed + (in_delay >> 1)`. -/
def syncScanDelays (seed : Int) : List Int :=
  (List.range sync_max_delay.toNat).map (fun j =>
    let jj : Int := if j % 2 = 1 then -(j : Int) else (j : Int)
    seed + ashr jj 1)

/-- The window sizes tried, largest to smallest (lines 435-436):
`for window in range(max_window - min_window + 1): window = max_window - window`. -/
def syncWindows : List Int :=
  (List.range (sync_max_window - sync_min_window + 1).toNat).map
    (fun window => sync_max_window - (window : Int))

/-- The body of the delay scan for one window size (lines 437-455): skip
out-of-range taps, program the sync register, clear the error state, read
the status word, and on the first clear flag shrink the window by
`min_window`, re-program, re-clear, and return. -/
def syncDelayLoop (e : Env) (err : Int → Int → Bool) (window : Int) :
    List Int → St → Option (Int × Int) × St
  | [], s => (none, s)
  | in_delay :: rest, s =>
    if in_delay < 0 ∨ in_delay > 31 then syncDelayLoop e err window rest s
    else
      let s1 := clear_smp_err e (set_sync e in_delay window s)
      let s2 := delayUs e 40 (staRead s1)  -- err = smp_err(sta_read()); slack
      if err in_delay window then syncDelayLoop e err window rest s2
      else
        let window1 := window - sync_min_window  -- add margin
        let s3 := delayUs e 40 (clear_smp_err e (set_sync e in_delay window1 s2))
        (some (in_delay, window1), s3)

/-- The outer loop over window sizes (lines 435-456). -/
def syncWindowLoop (e : Env) (err : Int → Int → Bool) (seed : Int) :
    List Int → St → Option (Int × Int) × St
  | [], s => (none, s)  -- raise ValueError("no valid window/delay")
  | w :: ws, s =>
    match syncDelayLoop e err w (syncScanDelays seed) s with
    | (none, s1) => syncWindowLoop e err seed ws s1
    | (some r, s1) => (some r, s1)

/-- `AD9910.tune_sync_delay(sync_delay_seed)` (lines 416-456). -/
def tune_sync_delay (e : Env) (err : Int → Int → Bool) (seed : Int) (s : St) :
    Option (Int × Int) × St :=
  syncWindowLoop e err seed syncWindows s

/-! Spec-side view of the sync-delay search, phrased from the claim: window
sizes from the maximum (4) down to 1; for each window the delay taps in the
outward-alternating order seed, seed-1, seed+1, seed-2, seed+2, ...,
skipping taps outside [0,31]; the result is the first candidate whose error
flag is clear. -/

/-- The outward-alternating probe order around the seed, as the claim
states it (one synchronization-clock period of taps). -/
def specDelayOrder (seed : Int) : List Int :=
  [seed, seed - 1, seed + 1, seed - 2, seed + 2, seed - 3, seed + 3,
   seed - 4, seed + 4, seed - 5, seed + 5, seed - 6, seed + 6, seed - 7]

/-- All (delay, window) candidates in probe order: window sizes from the
maximum down to 1, delays in outward-alternating order, restricted to the
legal tap range [0,31]. -/
def specSyncCandidates (seed : Int) : List (Int × Int) :=
  ([4, 3, 2, 1] : List Int).flatMap (fun w =>
    ((specDelayOrder seed).filter (fun d => decide (0 ≤ d ∧ d ≤ 31))).map
      (fun d => (d, w)))

/-- The first candidate whose error flag is clear. -/
def specSyncFirstClear (err : Int → Int → Bool) (seed : Int) :
    Option (Int × Int) :=
  (specSyncCandidates seed).find? (fun p => !err p.1 p.2)

/-- The register writes issued when (re-)programming a (delay, window)
pair: the MSYNC write of `set_sync` followed by the two CFR2
writes/IO_UPDATE pulses of `clear_smp_err`. -/
def reprogramEvents (e : Env) (d w : Int) : List Ev :=
  [Ev.w32 _AD9910_REG_MSYNC (msyncData d w),
   Ev.w32 _AD9910_REG_CFR2 0x01010020, Ev.pulse e.us,
   Ev.w32 _AD9910_REG_CFR2 0x01010000, Ev.pulse e.us]

/-- A CPLD status-word read (one probe of the error flag). -/
def isStaRead : Ev → Bool
  | .staRead => true
  | _ => false

/-- The number of error-flag probes recorded in a trace. -/
def staCount (tr : List Ev) : Nat := tr.countP isStaRead

lemma reprogram_trace (e : Env) (d w : Int) (s : St) :
    (clear_smp_err e (set_sync e d w s)).trace = s.trace ++ reprogramEvents e d w := by
  simp [clear_smp_err, set_sync, busWrite32, ioPulseUs, reprogramEvents]

lemma staCount_append (t l : List Ev) :
    staCount (t ++ l) = staCount t + l.countP isStaRead :=
  List.countP_append _ _ _

lemma staCount_reprogram (e : Env) (d w : Int) (s : St) :
    staCount (clear_smp_err e (set_sync e d w s)).trace = staCount s.trace := by
  rw [reprogram_trace, staCount_append]
  simp [reprogramEvents, isStaRead]

/-- Value computed by the inner delay scan: the first in-range tap with a
clear error flag, paired with the margin-relaxed window. -/
lemma syncDelayLoop_fst (e : Env) (err : Int → Int → Bool) (w : Int) :
    ∀ (ds : List Int) (s : St),
      (syncDelayLoop e err w ds s).1
        = ((ds.filter (fun d => decide (0 ≤ d ∧ d ≤ 31))).find?
            (fun d => !err d w)).map (fun d => (d, w - sync_min_window))
  | [], s => by simp [syncDelayLoop]
  | d :: ds, s => by
    by_cases hskip : d < 0 ∨ d > 31
    · have hf : (decide (0 ≤ d ∧ d ≤ 31)) = false := by
        simp only [decide_eq_false_iff_not]; omega
      rw [show syncDelayLoop e err w (d :: ds) s = syncDelayLoop e err w ds s by
        simp only [syncDelayLoop, if_pos hskip]]
      rw [List.filter_cons, hf]
      simpa using syncDelayLoop_fst e err w ds s
    · have hf : (decide (0 ≤ d ∧ d ≤ 31)) = true := by
        simp only [decide_eq_true_eq]; omega
      rw [List.filter_cons, hf]
      by_cases herr : err d w = true
      · rw [show syncDelayLoop e err w (d :: ds) s
            = syncDelayLoop e err w ds
                (delayUs e 40 (staRead (clear_smp_err e (set_sync e d w s)))) by
          simp only [syncDelayLoop, if_neg hskip, herr, if_true]]
        rw [if_pos rfl, List.find?_cons_of_neg _ (by simp [herr])]
        exact syncDelayLoop_fst e err w ds _
      · rw [show (syncDelayLoop e err w (d :: ds) s).1 = some (d, w - sync_min_window) by
          simp only [syncDelayLoop, if_neg hskip, if_neg herr]]
        rw [if_pos rfl, List.find?_cons_of_pos _ (by simp [herr])]
        rfl

/-- On success the final trace ends with the re-program / re-clear writes
for the returned (delay, window) pair. -/
lemma syncDelayLoop_success_trace (e : Env) (err : Int → Int → Bool) (w : Int) :
    ∀ (ds : List Int) (s : St) (d w1 : Int) (s1 : St),
      syncDelayLoop e err w ds s = (some (d, w1), s1) →
      ∃ t, s1.trace = t ++ reprogramEvents e d w1
  | [], s, d, w1, s1 => by simp [syncDelayLoop]
  | x :: ds, s, d, w1, s1 => by
    intro h
    by_cases hskip : x < 0 ∨ x > 31
    · rw [show syncDelayLoop e err w (x :: ds) s = syncDelayLoop e err w ds s by
        simp only [syncDelayLoop, if_pos hskip]] at h
      exact syncDelayLoop_success_trace e err w ds s d w1 s1 h
    · by_cases herr : err x w = true
      · rw [show syncDelayLoop e err w (x :: ds) s
            = syncDelayLoop e err w ds
                (delayUs e 40 (staRead (clear_smp_err e (set_sync e x w s)))) by
          simp only [syncDelayLoop, if_neg hskip, herr, if_true]] at h
        exact syncDelayLoop_success_trace e err w ds _ d w1 s1 h
      · rw [show syncDelayLoop e err w (x :: ds) s
            = (some (x, w - sync_min_window),
               delayUs e 40 (clear_smp_err e (set_sync e x (w - sync_min_window)
                 (delayUs e 40 (staRead (clear_smp_err e (set_sync e x w s))))))) by
          simp only [syncDelayLoop, if_neg hskip, if_neg herr]] at h
        simp only [Prod.mk.injEq, Option.some.injEq] at h
        obtain ⟨⟨hx, hw⟩, hs⟩ := h
        subst hx hw hs
        have htr : (delayUs e 40 (clear_smp_err e (set_sync e x (w - sync_min_window)
            (delayUs e 40 (staRead (clear_smp_err e (set_sync e x w s))))))).trace
            = (delayUs e 40 (staRead (clear_smp_err e (set_sync e x w s)))).trace
              ++ reprogramEvents e x (w - sync_min_window) := by
          show (clear_smp_err e (set_sync e x (w - sync_min_window)
            (delayUs e 40 (staRead (clear_smp_err e (set_sync e x w s)))))).trace = _
          rw [reprogram_trace]
        exact ⟨_, htr⟩

/-- Value computed by the outer window loop: the first clear candidate over
windows in `ws`, with the margin-relaxed window. -/
lemma syncWindowLoop_fst (e : Env) (err : Int → Int → Bool) (seed : Int) :
    ∀ (ws : List Int) (s : St),
      (syncWindowLoop e err seed ws s).1
        = ((ws.flatMap (fun w =>
            ((syncScanDelays seed).filter (fun d => decide (0 ≤ d ∧ d ≤ 31))).map
              (fun d => (d, w)))).find? (fun p => !err p.1 p.2)).map
            (fun p => (p.1, p.2 - sync_min_window))
  | [], s => by simp [syncWindowLoop]
  | wv :: ws, s => by
    have hv := syncDelayLoop_fst e err wv (syncScanDelays seed) s
    rcases hp : syncDelayLoop e err wv (syncScanDelays seed) s with ⟨o, s1⟩
    rw [hp] at hv
    rw [List.flatMap_cons, List.find?_append]
    have hm : ((((syncScanDelays seed).filter (fun d => decide (0 ≤ d ∧ d ≤ 31))).map
        (fun d => (d, wv))).find? (fun p => !err p.1 p.2))
        = (((syncScanDelays seed).filter (fun d => decide (0 ≤ d ∧ d ≤ 31))).find?
            (fun d => !err d wv)).map (fun d => (d, wv)) := by
      rw [List.find?_map]; rfl
    rw [hm]
    cases hf : ((syncScanDelays seed).filter (fun d => decide (0 ≤ d ∧ d ≤ 31))).find?
        (fun d => !err d wv) with
    | none =>
      rw [hf] at hv
      simp only [Option.map_none'] at hv
      rw [show syncWindowLoop e err seed (wv :: ws) s = syncWindowLoop e err seed ws s1 by
        simp only [syncWindowLoop, hp, hv]]
      rw [syncWindowLoop_fst e err seed ws s1]
      simp
    | some d0 =>
      rw [hf] at hv
      simp only [Option.map_some'] at hv
      rw [show (syncWindowLoop e err seed (wv :: ws) s).1 = o by
        simp only [syncWindowLoop, hp, hv]]
      simp [hv]

/-- On success the final trace of the outer loop ends with the re-program /
re-clear writes for the returned pair. -/
lemma syncWindowLoop_success_trace (e : Env) (err : Int → Int → Bool) (seed : Int) :
    ∀ (ws : List Int) (s : St) (d w1 : Int) (s1 : St),
      syncWindowLoop e err seed ws s = (some (d, w1), s1) →
      ∃ t, s1.trace = t ++ reprogramEvents e d w1
  | [], s, d, w1, s1 => by simp [syncWindowLoop]
  | wv :: ws, s, d, w1, s1 => by
    intro h
    rcases hp : syncDelayLoop e err wv (syncScanDelays seed) s with ⟨o, s2⟩
    cases o with
    | none =>
      rw [show syncWindowLoop e err seed (wv :: ws) s = syncWindowLoop e err seed ws s2 by
        simp only [syncWindowLoop, hp]] at h
      exact syncWindowLoop_success_trace e err seed ws s2 d w1 s1 h
    | some r =>
      rw [show syncWindowLoop e err seed (wv :: ws) s = (some r, s2) by
        simp only [syncWindowLoop, hp]] at h
      simp only [Prod.mk.injEq, Option.some.injEq] at h
      obtain ⟨hr, hs⟩ := h
      rw [hr, hs] at hp
      exact syncDelayLoop_success_trace e err wv (syncScanDelays seed) s d w1 s1 hp

/-- The loop-order delay list of the source equals the outward-alternating
order stated by the specification. -/
lemma syncScanDelays_eq (seed : Int) : syncScanDelays seed = specDelayOrder seed := by
  simp only [syncScanDelays, sync_max_delay, sync_dt, specDelayOrder,
    show ((14 : Int)).toNat = 14 from rfl,
    show List.range 14 = [0, 1, 2, 3, 4, 5, 6, 7, 8, 9, 10, 11, 12, 13] from rfl,
    List.map]
  norm_num [ashr,
    show Int.fdiv 0 2 = 0 from by decide, show Int.fdiv (-1) 2 = -1 from by decide,
    show Int.fdiv 2 2 = 1 from by decide, show Int.fdiv (-3) 2 = -2 from by decide,
    show Int.fdiv 4 2 = 2 from by decide, show Int.fdiv (-5) 2 = -3 from by decide,
    show Int.fdiv 6 2 = 3 from by decide, show Int.fdiv (-7) 2 = -4 from by decide,
    show Int.fdiv 8 2 = 4 from by decide, show Int.fdiv (-9) 2 = -5 from by decide,
    show Int.fdiv 10 2 = 5 from by decide, show Int.fdiv (-11) 2 = -6 from by decide,
    show Int.fdiv 12 2 = 6 from by decide, show Int.fdiv (-13) 2 = -7 from by decide]
  omega

/-- The window sizes tried are 4, 3, 2, 1 — maximum down to minimum. -/
lemma syncWindows_eq : syncWindows = [4, 3, 2, 1] := by decide

/-- C6: `tune_sync_delay` iterates window sizes from the maximum down to 1
and probes delay taps in the outward-alternating order seed, seed-1,
seed+1, seed-2, seed+2, ..., skipping taps outside [0,31]; on the first
(delay, window) pair whose error flag is clear it decreases the window by
the minimum step, re-programs the sync register, re-clears the error state,
and returns that delay with the decreased window. -/
theorem tune_sync_delay_matches_spec (e : Env) (err : Int → Int → Bool)
    (seed : Int) (s0 : St) :
    (tune_sync_delay e err seed s0).1
      = (specSyncFirstClear err seed).map (fun p => (p.1, p.2 - sync_min_window)) ∧
    ∀ d w, (tune_sync_delay e err seed s0).1 = some (d, w) →
      ∃ t, (tune_sync_delay e err seed s0).2.trace = t ++ reprogramEvents e d w := by
  constructor
  · rw [show tune_sync_delay e err seed s0
        = syncWindowLoop e err seed syncWindows s0 from rfl,
      syncWindowLoop_fst, syncWindows_eq, syncScanDelays_eq]
    rfl
  · intro d w h
    have heq : syncWindowLoop e err seed syncWindows s0
        = (some (d, w), (tune_sync_delay e err seed s0).2) := by
      rw [← h]
      rfl
    exact syncWindowLoop_success_trace e err seed syncWindows s0 d w _ heq

/-- The always-clear and always-asserted synthetic error flags. -/
def errNone : Int → Int → Bool := fun _ _ => false

def errAll : Int → Int → Bool := fun _ _ => true

/-- C6 witness: the search equivalence at seed 9 with an always-clear error
flag; the first candidate (9, 4) succeeds and (9, 3) is returned, the trace
ending with its re-program/re-clear writes. -/
theorem tune_sync_delay_matches_spec_witness :
    (tune_sync_delay envTest errNone 9 { now := 0, trace := [] }).1
      = (specSyncFirstClear errNone 9).map (fun p => (p.1, p.2 - sync_min_window)) ∧
    ∃ t, (tune_sync_delay envTest errNone 9 { now := 0, trace := [] }).2.trace
      = t ++ reprogramEvents envTest 9 3 :=
  ⟨(tune_sync_delay_matches_spec envTest errNone 9 { now := 0, trace := [] }).1,
   (tune_sync_delay_matches_spec envTest errNone 9 { now := 0, trace := [] }).2
     9 3 (by decide)⟩

lemma staCount_probe (e : Env) (x w : Int) (s : St) :
    staCount (delayUs e 40 (staRead (clear_smp_err e (set_sync e x w s)))).trace
      = staCount s.trace + 1 := by
  show staCount ((clear_smp_err e (set_sync e x w s)).trace ++ [Ev.staRead]) = _
  rw [staCount_append, staCount_reprogram]
  rfl

lemma staCount_success (e : Env) (x w : Int) (s : St) :
    staCount (delayUs e 40 (clear_smp_err e (set_sync e x w s))).trace
      = staCount s.trace := by
  show staCount (clear_smp_err e (set_sync e x w s)).trace = _
  exact staCount_reprogram e x w s

/-- Each delay scan reads the status word at most once per listed tap. -/
lemma syncDelayLoop_staCount (e : Env) (err : Int → Int → Bool) (w : Int) :
    ∀ (ds : List Int) (s : St),
      staCount (syncDelayLoop e err w ds s).2.trace ≤ staCount s.trace + ds.length
  | [], s => by simp [syncDelayLoop]
  | x :: ds, s => by
    by_cases hskip : x < 0 ∨ x > 31
    · rw [show syncDelayLoop e err w (x :: ds) s = syncDelayLoop e err w ds s by
        simp only [syncDelayLoop, if_pos hskip]]
      have := syncDelayLoop_staCount e err w ds s
      simp only [List.length_cons]
      omega
    · by_cases herr : err x w = true
      · rw [show syncDelayLoop e err w (x :: ds) s
            = syncDelayLoop e err w ds
                (delayUs e 40 (staRead (clear_smp_err e (set_sync e x w s)))) by
          simp only [syncDelayLoop, if_neg hskip, herr, if_true]]
        have h1 := syncDelayLoop_staCount e err w ds
          (delayUs e 40 (staRead (clear_smp_err e (set_sync e x w s))))
        rw [staCount_probe] at h1
        simp only [List.length_cons]
        omega
      · rw [show syncDelayLoop e err w (x :: ds) s
            = (some (x, w - sync_min_window),
               delayUs e 40 (clear_smp_err e (set_sync e x (w - sync_min_window)
                 (delayUs e 40 (staRead (clear_smp_err e (set_sync e x w s))))))) by
          simp only [syncDelayLoop, if_neg hskip, if_neg herr]]
        show staCount (delayUs e 40 (clear_smp_err e (set_sync e x (w - sync_min_window)
          (delayUs e 40 (staRead (clear_smp_err e (set_sync e x w s))))))).trace ≤ _
        rw [staCount_success, staCount_probe]
        simp only [List.length_cons]
        omega

/-- The full search reads the status word at most once per
(window, listed tap) combination. -/
lemma syncWindowLoop_staCount (e : Env) (err : Int → Int → Bool) (seed : Int) :
    ∀ (ws : List Int) (s : St),
      staCount (syncWindowLoop e err seed ws s).2.trace
        ≤ staCount s.trace + ws.length * (syncScanDelays seed).length
  | [], s => by simp [syncWindowLoop]
  | wv :: ws, s => by
    rcases hp : syncDelayLoop e err wv (syncScanDelays seed) s with ⟨o, s1⟩
    have h1 : staCount s1.trace ≤ staCount s.trace + (syncScanDelays seed).length := by
      have := syncDelayLoop_staCount e err wv (syncScanDelays seed) s
      rw [hp] at this
      exact this
    cases o with
    | none =>
      rw [show syncWindowLoop e err seed (wv :: ws) s
          = syncWindowLoop e err seed ws s1 by simp only [syncWindowLoop, hp]]
      have h2 := syncWindowLoop_staCount e err seed ws s1
      simp only [List.length_cons]
      calc staCount (syncWindowLoop e err seed ws s1).2.trace
          ≤ staCount s1.trace + ws.length * (syncScanDelays seed).length := h2
        _ ≤ staCount s.trace + (ws.length + 1) * (syncScanDelays seed).length := by
            rw [Nat.succ_mul]
            omega
    | some r =>
      rw [show syncWindowLoop e err seed (wv :: ws) s = (some r, s1) by
        simp only [syncWindowLoop, hp]]
      show staCount s1.trace ≤ _
      simp only [List.length_cons]
      calc staCount s1.trace
          ≤ staCount s.trace + (syncScanDelays seed).length := h1
        _ ≤ staCount s.trace + (ws.length + 1) * (syncScanDelays seed).length := by
            rw [Nat.succ_mul]
            omega

/-- C7: `tune_sync_delay` performs at most `max_window * max_delay` probes
of the error flag, and if every probed (delay, window) combination shows
the error flag asserted it fails (`raise ValueError`, modelled as a `none`
result with no returned pair). -/
theorem tune_sync_delay_probe_bound (e : Env) (err : Int → Int → Bool)
    (seed : Int) (s0 : St) :
    staCount (tune_sync_delay e err seed s0).2.trace
      ≤ staCount s0.trace + (sync_max_window * sync_max_delay).toNat ∧
    ((∀ d w, err d w = true) → (tune_sync_delay e err seed s0).1 = none) := by
  constructor
  · have h := syncWindowLoop_staCount e err seed syncWindows s0
    have hlen : syncWindows.length * (syncScanDelays seed).length
        = (sync_max_window * sync_max_delay).toNat := by
      rw [syncWindows_eq, syncScanDelays_eq seed]
      rfl
    rw [hlen] at h
    exact h
  · intro herr
    rw [show tune_sync_delay e err seed s0
        = syncWindowLoop e err seed syncWindows s0 from rfl, syncWindowLoop_fst]
    rw [List.find?_eq_none.mpr (fun p _ => by simp [herr p.1 p.2])]
    rfl

/-- C7 witness: with an always-asserted error flag at seed 9 the search
probes within the bound and returns no pair. -/
theorem tune_sync_delay_probe_bound_witness :
    staCount (tune_sync_delay envTest errAll 9 { now := 0, trace := [] }).2.trace
      ≤ staCount (St.mk 0 []).trace + (sync_max_window * sync_max_delay).toNat ∧
    (tune_sync_delay envTest errAll 9 { now := 0, trace := [] }).1 = none :=
  ⟨(tune_sync_delay_probe_bound envTest errAll 9 { now := 0, trace := [] }).1,
   (tune_sync_delay_probe_bound envTest errAll 9 { now := 0, trace := [] }).2
     (fun _ _ => rfl)⟩

/-! ## Constructor validation (`AD9910.__init__`, lines 78-106)

The constructor only reads configuration (the device manager lookups on
lines 81-83 and 86-88 resolve collaborator objects and touch no hardware),
asserts its invariants, and computes derived fields; it issues no bus
transaction.  Host floats (`refclk`, `ref_period`) are modelled as exact
rationals: the constructor only compares them and demands that the
tick-conversion rounding be exact. -/

/-- The constructor arguments plus the two collaborator-provided clock
parameters (`self.cpld.refclk`, `self.core.ref_period`). -/
structure InitParams where
  chip_select : Int
  pll_n : Int
  pll_cp : Int
  pll_vco : Int
  refclk : ℚ
  ref_period : ℚ
  sync_delay_seed : Int
  io_update_delay : Int
  deriving DecidableEq

/-- The VCO band table of line 98-99:
`[(370, 510), (420, 590), (500, 700), (600, 880), (700, 950), (820, 1150)]`
indexed by `pll_vco`. -/
def vcoBand (pll_vco : Int) : ℚ × ℚ :=
  if pll_vco = 0 then (370, 510) else if pll_vco = 1 then (420, 590)
  else if pll_vco = 2 then (500, 700) else if pll_vco = 3 then (600, 880)
  else if pll_vco = 4 then (700, 950) else (820, 1150)

/-- `sysclk = self.cpld.refclk*pll_n/4  # Urukul clock fanout divider`. -/
def sysclkOf (p : InitParams) : ℚ := p.refclk * p.pll_n / 4

/-- `AD9910.__init__` (lines 78-106): the assertion chain in source order
(chip select, PLL multiplier, reference clock, system clock, exact tick
conversion, VCO selector, VCO band, charge pump), producing either the
validated channel configuration or the first assertion failure.  The first
component is the trace of hardware actions issued during construction —
there are none. -/
def ad9910_validate (p : InitParams) : Except String AD9910 :=
  if ¬ (3 ≤ p.chip_select ∧ p.chip_select ≤ 7) then .error "chip_select" else
  if ¬ (12 ≤ p.pll_n ∧ p.pll_n ≤ 127) then .error "pll_n" else
  if ¬ (p.refclk / 4 ≤ 60000000) then .error "refclk" else
  if ¬ (sysclkOf p ≤ 1000000000) then .error "sysclk" else
  if ¬ ((round (sysclkOf p * p.ref_period) : ℚ) = sysclkOf p * p.ref_period)
    then .error "sysclk_per_mu" else
  if ¬ (0 ≤ p.pll_vco ∧ p.pll_vco ≤ 5) then .error "pll_vco" else
  if ¬ ((vcoBand p.pll_vco).1 ≤ sysclkOf p / 1000000
        ∧ sysclkOf p / 1000000 ≤ (vcoBand p.pll_vco).2)
    then .error "vco band" else
  if ¬ (0 ≤ p.pll_cp ∧ p.pll_cp ≤ 7) then .error "pll_cp" else
  .ok { chip_select := p.chip_select, pll_n := p.pll_n, pll_cp := p.pll_cp,
        pll_vco := p.pll_vco, ftw_per_hz := 2^32 / sysclkOf p,
        sysclk_per_mu := round (sysclkOf p * p.ref_period),
        sync_delay_seed := p.sync_delay_seed,
        io_update_delay := p.io_update_delay,
        phase_mode := PHASE_MODE_CONTINUOUS }

/-- The constructor as observed by the hardware: the (empty) trace of bus
actions it issues, paired with the validation outcome. -/
def ad9910_init (p : InitParams) : List Ev × Except String AD9910 :=
  (([] : List Ev), ad9910_validate p)

/-- C9: channel construction fails with a configuration error for every
PLL multiplier outside [12,127], for every reference clock with
`refclk/4 > 60 MHz`, for every configuration whose resulting system clock
exceeds 1 GHz or (with a valid VCO selector) lies outside the selected VCO
band, and for every non-exact system-clock-ticks-per-machine-unit
conversion; all such failures occur before any bus or hardware access
(the constructor's hardware trace is empty). -/
theorem ad9910_init_rejects_invalid (p : InitParams)
    (h : ¬ (12 ≤ p.pll_n ∧ p.pll_n ≤ 127)
       ∨ 60000000 < p.refclk / 4
       ∨ 1000000000 < sysclkOf p
       ∨ ((0 ≤ p.pll_vco ∧ p.pll_vco ≤ 5) ∧
          (sysclkOf p / 1000000 < (vcoBand p.pll_vco).1
           ∨ (vcoBand p.pll_vco).2 < sysclkOf p / 1000000))
       ∨ ¬ ∃ n : ℤ, (n : ℚ) = sysclkOf p * p.ref_period) :
    (ad9910_init p).1 = [] ∧ ∃ msg, (ad9910_init p).2 = .error msg := by
  refine ⟨rfl, ?_⟩
  show (∃ msg, ad9910_validate p = .error msg)
  unfold ad9910_validate
  rcases h with h | h | h | ⟨hv, hb⟩ | h
  · split_ifs <;> exact ⟨_, rfl⟩
  · have h' : ¬ (p.refclk / 4 ≤ 60000000) := not_le.mpr h
    split_ifs <;> exact ⟨_, rfl⟩
  · have h' : ¬ (sysclkOf p ≤ 1000000000) := not_le.mpr h
    split_ifs <;> exact ⟨_, rfl⟩
  · have h' : ¬ ((vcoBand p.pll_vco).1 ≤ sysclkOf p / 1000000
        ∧ sysclkOf p / 1000000 ≤ (vcoBand p.pll_vco).2) := by
      rintro ⟨hl, hr⟩
      rcases hb with hb | hb <;> linarith
    split_ifs <;> exact ⟨_, rfl⟩
  · have h' : ¬ ((round (sysclkOf p * p.ref_period) : ℚ) = sysclkOf p * p.ref_period) :=
      fun heq => h ⟨round (sysclkOf p * p.ref_period), heq⟩
    split_ifs <;> exact ⟨_, rfl⟩

/-- A parameter set violating several constructor invariants at once
(PLL multiplier 5, reference clock 1 GHz). -/
def initBad : InitParams :=
  { chip_select := 4, pll_n := 5, pll_cp := 7, pll_vco := 5,
    refclk := 1000000000, ref_period := 1, sync_delay_seed := -1,
    io_update_delay := 0 }

/-- C9 witness: the rejection theorem at the concrete invalid parameter
set `initBad` (PLL multiplier 5 lies outside [12,127]). -/
theorem ad9910_init_rejects_invalid_witness :
    (¬ (12 ≤ initBad.pll_n ∧ initBad.pll_n ≤ 127)) ∧
    ((ad9910_init initBad).1 = [] ∧
      ∃ msg, (ad9910_init initBad).2 = .error msg) :=
  ⟨by decide, ad9910_init_rejects_invalid initBad (Or.inl (by decide))⟩
